import Mathlib

/-!
Verification development for the log-analyzer service
(`src/services/log-analyzer/app.py`, `src/services/log-analyzer/anomaly_detector.py`)
and the prompt-enrichment service (`src/services/prompt_enhancer.py`).

The Python pipeline is shallowly embedded: JSON values are `JValue`, a pandas
DataFrame is a `DataFrame` (column list, row count, cell valuation, numeric-dtype
flag), floats are modelled as rationals, missing values (NaN/NaT) as a `Cell.missing`
constructor, and Python exceptions as `Except PyError`.  The sklearn
`IsolationForest` internals are external library code and are modelled from the
spec (see `rowScore`); everything else is translated from the source files.
-/

/-- A JSON-compatible scalar value as it appears in a request/response body.
Numbers are modelled as rationals (JSON does not distinguish int from float). -/
inductive JValue where
  | num (q : Rat)
  | str (s : String)
  | bool (b : Bool)
  | null
deriving DecidableEq, Repr

/-- A log record: a JSON object, i.e. an association list from field names to values
(Python dicts preserve insertion order, so a list of pairs is faithful). -/
abbrev LogRecord := List (String × JValue)

/-- A cell of a pandas DataFrame.  `missing` stands for NaN/NaT (a missing entry or a
JSON null, which pandas treats as NaN); `dt` is a datetime64 value, carried as epoch
milliseconds (the resolution `DataFrame.to_json` serializes datetimes at). -/
inductive Cell where
  | missing
  | num (q : Rat)
  | str (s : String)
  | bool (b : Bool)
  | dt (ms : Int)
deriving DecidableEq, Repr

/-- How `pd.DataFrame(list_of_dicts)` stores a JSON value in a cell:
JSON null becomes NaN, everything else is kept. -/
def toCell : Option JValue → Cell
  | none => .missing
  | some .null => .missing
  | some (.num q) => .num q
  | some (.str s) => .str s
  | some (.bool b) => .bool b

/-- How `df.to_json(orient='records')` serializes a cell: NaN/NaT becomes JSON null,
datetime64 becomes its epoch-milliseconds integer. -/
def serializeCell : Cell → JValue
  | .missing => .null
  | .num q => .num q
  | .str s => .str s
  | .bool b => .bool b
  | .dt ms => .num (ms : Rat)

/-- The Python exception classes that can escape the pipeline, as dispatched by the
`except` clauses of `analyze_logs`. -/
inductive PyError where
  | parserError (msg : String)
  | typeError (msg : String)
  | valueError (msg : String)
  | keyError (msg : String)
  | emptyDataError (msg : String)
  | runtimeError (msg : String)
deriving DecidableEq, Repr

/-- Message carried by an exception. -/
def PyError.message : PyError → String
  | .parserError m => m
  | .typeError m => m
  | .valueError m => m
  | .keyError m => m
  | .emptyDataError m => m
  | .runtimeError m => m

/-- Split a character list at every occurrence of the separator. -/
def splitOnChar (sep : Char) : List Char → List (List Char)
  | [] => [[]]
  | c :: cs =>
    let rest := splitOnChar sep cs
    if c = sep then [] :: rest
    else
      match rest with
      | [] => [[c]]
      | h :: t => (c :: h) :: t

/-- Parse a non-empty all-digit character list as a natural number. -/
def digitsToNatAux : List Char → Nat → Option Nat
  | [], acc => some acc
  | c :: cs, acc => if c.isDigit then digitsToNatAux cs (acc * 10 + (c.toNat - 48)) else none

/-- Parse a non-empty all-digit character list as a natural number, `none` otherwise. -/
def digitsToNat : List Char → Option Nat
  | [] => none
  | cs => digitsToNatAux cs 0

/-- Gregorian leap-year test. -/
def isLeapYear (y : Nat) : Bool := y % 4 = 0 && (y % 100 ≠ 0 || y % 400 = 0)

/-- Number of days in a month of the Gregorian calendar. -/
def daysInMonth (y m : Nat) : Nat :=
  if m = 2 then (if isLeapYear y then 29 else 28)
  else if m = 4 || m = 6 || m = 9 || m = 11 then 30
  else 31

/-- Days from the civil epoch 1970-01-01 to the given Gregorian date
(standard era-based civil-calendar algorithm). -/
def daysFromCivil (y m d : Nat) : Int :=
  let y' : Int := if m ≤ 2 then (y : Int) - 1 else (y : Int)
  let era : Int := Int.fdiv y' 400
  let yoe : Int := y' - era * 400
  let mp : Int := Int.emod ((m : Int) + 9) 12
  let doy : Int := Int.fdiv (153 * mp + 2) 5 + (d : Int) - 1
  let doe : Int := yoe * 365 + Int.fdiv yoe 4 - Int.fdiv yoe 100 + doy
  era * 146097 + doe - 719468

/-- Parse the date part `YYYY-MM-DD` of an ISO-8601 timestamp, giving days since
the epoch.  An unparseable date is the `pd.to_datetime` parse failure, a
`ValueError`-class exception. -/
def parseDate (s : String) (cs : List Char) : Except PyError Int :=
  match splitOnChar '-' cs with
  | [ys, ms, ds] =>
    match digitsToNat ys, digitsToNat ms, digitsToNat ds with
    | some y, some m, some d =>
      if 1 ≤ m ∧ m ≤ 12 ∧ 1 ≤ d ∧ d ≤ daysInMonth y m then .ok (daysFromCivil y m d)
      else .error (.parserError ("Unknown datetime string format, unable to parse: " ++ s))
    | _, _, _ => .error (.parserError ("Unknown datetime string format, unable to parse: " ++ s))
  | _ => .error (.parserError ("Unknown datetime string format, unable to parse: " ++ s))

/-- Parse the time part `HH:MM[:SS]` of an ISO-8601 timestamp, giving milliseconds
into the day. -/
def parseTime (s : String) (cs : List Char) : Except PyError Int :=
  match splitOnChar ':' cs with
  | [hs, ms] =>
    match digitsToNat hs, digitsToNat ms with
    | some h, some mi =>
      if h < 24 ∧ mi < 60 then .ok (((h * 60 + mi) * 60 : Int) * 1000)
      else .error (.parserError ("Unknown datetime string format, unable to parse: " ++ s))
    | _, _ => .error (.parserError ("Unknown datetime string format, unable to parse: " ++ s))
  | [hs, ms, ss] =>
    match digitsToNat hs, digitsToNat ms, digitsToNat ss with
    | some h, some mi, some sec =>
      if h < 24 ∧ mi < 60 ∧ sec < 60 then .ok ((((h * 60 + mi) * 60 + sec : Int)) * 1000)
      else .error (.parserError ("Unknown datetime string format, unable to parse: " ++ s))
    | _, _, _ => .error (.parserError ("Unknown datetime string format, unable to parse: " ++ s))
  | _ => .error (.parserError ("Unknown datetime string format, unable to parse: " ++ s))

/-- Semantics of `pd.to_datetime` on an ISO-8601-like string
(`YYYY-MM-DD`, optionally followed by `T` or a space and `HH:MM[:SS]`):
epoch milliseconds on success, a `ValueError`-class parse failure otherwise. -/
def parseTimestamp (s : String) : Except PyError Int :=
  let cs := s.data.map (fun ch => if ch = 'T' then ' ' else ch)
  match splitOnChar ' ' cs with
  | [d] =>
    match parseDate s d with
    | .ok days => .ok (days * 86400000)
    | .error e => .error e
  | [d, t] =>
    match parseDate s d, parseTime s t with
    | .ok days, .ok ms => .ok (days * 86400000 + ms)
    | .error e, _ => .error e
    | _, .error e => .error e
  | _ => .error (.parserError ("Unknown datetime string format, unable to parse: " ++ s))

/-- Hour-of-day (0-23) of an epoch-milliseconds datetime, as `Series.dt.hour`. -/
def hourOf (ms : Int) : Int := Int.emod (Int.fdiv ms 3600000) 24

/-- Day-of-week (0-6, Monday = 0) of an epoch-milliseconds datetime, as
`Series.dt.dayofweek` (1970-01-01 was a Thursday, index 3). -/
def dayOfWeekOf (ms : Int) : Int := Int.emod (Int.fdiv ms 86400000 + 3) 7

/-- Sum of a list of rationals (explicit recursion, kernel-reducible). -/
def ratSum : List Rat → Rat
  | [] => 0
  | x :: xs => x + ratSum xs

/-- Absolute value of a rational. -/
def ratAbs (q : Rat) : Rat := if q < 0 then -q else q

/-- Floor of a rational as an integer. -/
def ratFloor (q : Rat) : Int := Int.fdiv q.num (q.den : Int)

/-- Decidable equality for `Except`, needed to evaluate the pipeline on concrete
inputs inside proofs. -/
instance [DecidableEq ε] [DecidableEq α] : DecidableEq (Except ε α) := fun x y =>
  match x, y with
  | .error a, .error b =>
    if h : a = b then .isTrue (by rw [h]) else .isFalse (fun hc => h (Except.error.inj hc))
  | .ok a, .ok b =>
    if h : a = b then .isTrue (by rw [h]) else .isFalse (fun hc => h (Except.ok.inj hc))
  | .error _, .ok _ => .isFalse (fun hc => Except.noConfusion hc)
  | .ok _, .error _ => .isFalse (fun hc => Except.noConfusion hc)

/-- Semantics of `pd.to_datetime` on one cell of the `timestamp` column:
NaN stays NaT, strings are parsed (failure fails the whole column), numbers are
interpreted as nanoseconds since the epoch, booleans raise `TypeError`. -/
def parseTsCell : Cell → Except PyError Cell
  | .missing => .ok .missing
  | .str s =>
    match parseTimestamp s with
    | .ok ms => .ok (.dt ms)
    | .error e => .error e
  | .num q => .ok (.dt (Int.fdiv (ratFloor q) 1000000))
  | .bool _ => .error (.typeError "<class 'bool'> is not convertible to datetime")
  | .dt ms => .ok (.dt ms)

/-- Value of a successfully parsed cell (junk value on the error side, which the
pipeline never reads because a parse error aborts the whole request first). -/
def exOkCell : Except PyError Cell → Cell
  | .ok c => c
  | .error _ => .missing

/-- Error of a parse attempt, if any. -/
def exErr : Except PyError Cell → Option PyError
  | .ok _ => none
  | .error e => some e

/-- Keep the first occurrence of every element (pandas column order for
`pd.DataFrame(list_of_dicts)`: union of the dict keys in first-seen order). -/
def firstSeenAux (seen : List String) : List String → List String
  | [] => []
  | x :: xs => if x ∈ seen then firstSeenAux seen xs else x :: firstSeenAux (x :: seen) xs

/-- Shallow embedding of a pandas DataFrame: ordered column names, row count, a cell
valuation, and the dtype information `select_dtypes(include=['number'])` consults,
reduced to a single numeric/non-numeric flag per column. -/
structure DataFrame where
  cols : List String
  nrows : Nat
  cell : Nat → String → Cell
  numeric : String → Bool

/-- Does this cell fit in a numeric (int64/float64) column? -/
def cellNumOrMissing : Cell → Bool
  | .num _ => true
  | .missing => true
  | _ => false

/-- Is this cell an actual number? -/
def cellIsNum : Cell → Bool
  | .num _ => true
  | _ => false

/-- Dtype inference of `pd.DataFrame(list_of_dicts)` for one column: the column is
numeric (int64 or float64) iff every present value is a number and at least one value
is present (an all-missing column gets object dtype). -/
def isNumericColumn (batch : List LogRecord) (c : String) : Bool :=
  batch.all (fun r => cellNumOrMissing (toCell (r.lookup c))) &&
    batch.any (fun r => cellIsNum (toCell (r.lookup c)))

/-- Semantics of `pd.DataFrame(log_data)` for a list of JSON objects: columns are the
union of keys in first-seen order, a missing key or a JSON null is NaN. -/
def mkDataFrame (batch : List LogRecord) : DataFrame :=
  { cols := firstSeenAux [] ((batch.map (fun r => r.map Prod.fst)).flatten)
    nrows := batch.length
    cell := fun i c => toCell ((batch.getD i []).lookup c)
    numeric := fun c => isNumericColumn batch c }

/-- The parsed `timestamp` cell of row `i` (`pd.to_datetime(df['timestamp'])`). -/
def tsParsedCell (df : DataFrame) (i : Nat) : Except PyError Cell :=
  parseTsCell (df.cell i "timestamp")

/-- First exception raised while parsing the `timestamp` column, if any
(`pd.to_datetime` fails the whole column on the first bad value). -/
def tsError (df : DataFrame) : Option PyError :=
  (List.range df.nrows).findSome? (fun i => exErr (tsParsedCell df i))

/-- Effect of `df['timestamp'] = pd.to_datetime(df['timestamp'])`: the column keeps
its position but its cells become datetimes and its dtype becomes datetime64, which
`select_dtypes(include=['number'])` does not select. -/
def tsTransform (df : DataFrame) : DataFrame :=
  { cols := df.cols
    nrows := df.nrows
    cell := fun i c => if c = "timestamp" then exOkCell (tsParsedCell df i) else df.cell i c
    numeric := fun c => if c = "timestamp" then false else df.numeric c }

/-- Column assignment `df[name] = values`: overwrites the column in place if it
exists, otherwise appends it at the end. -/
def assignColumn (df : DataFrame) (name : String) (f : Nat → Cell) (isNum : Bool) : DataFrame :=
  { cols := if name ∈ df.cols then df.cols else df.cols ++ [name]
    nrows := df.nrows
    cell := fun i c => if c = name then f i else df.cell i c
    numeric := fun c => if c = name then isNum else df.numeric c }

/-- The derived `hour` cell (`dt.hour`): NaN for NaT. -/
def hourCellOf : Cell → Cell
  | .dt ms => .num (hourOf ms)
  | _ => .missing

/-- The derived `day_of_week` cell (`dt.dayofweek`): NaN for NaT. -/
def dowCellOf : Cell → Cell
  | .dt ms => .num (dayOfWeekOf ms)
  | _ => .missing

/-- Feature derivation of `analyze_logs` (app.py lines 28-35): build the DataFrame;
if a `timestamp` column exists, parse it (any parse failure aborts the request) and
derive the numeric `hour` and `day_of_week` columns. -/
def deriveStage (batch : List LogRecord) : Except PyError DataFrame :=
  let df0 := mkDataFrame batch
  if "timestamp" ∈ df0.cols then
    match tsError df0 with
    | some e => .error e
    | none =>
      let df1 := tsTransform df0
      let df2 := assignColumn df1 "hour" (fun i => hourCellOf (exOkCell (tsParsedCell df0 i))) true
      let df3 := assignColumn df2 "day_of_week"
        (fun i => dowCellOf (exOkCell (tsParsedCell df0 i))) true
      .ok df3
  else .ok df0

/-- The columns `df.select_dtypes(include=['number']).columns` selects, in order. -/
def numericCols (df : DataFrame) : List String := df.cols.filter df.numeric

/-- Column selection of `analyze_logs` (app.py lines 38-42): the numeric columns, or
a synthesized `dummy_feature` column equal to the row index when there are none. -/
def selectStage (df : DataFrame) : DataFrame × List String :=
  let ncols := numericCols df
  if ncols.isEmpty then
    (assignColumn df "dummy_feature" (fun i => .num (i : Rat)) true, ["dummy_feature"])
  else (df, ncols)

/-- The feature matrix `df[numerical_cols]` handed to the model, row-major. -/
def modelMatrix (df : DataFrame) (sel : List String) : List (List Cell) :=
  (List.range df.nrows).map (fun i => sel.map (fun c => df.cell i c))

/-- Map a fallible function over a list, stopping at the first exception
(the effect of a Python `for`-style traversal that may raise). -/
def mapExcept (f : α → Except PyError β) : List α → Except PyError (List β)
  | [] => .ok []
  | a :: as =>
    match f a with
    | .error e => .error e
    | .ok b =>
      match mapExcept f as with
      | .error e => .error e
      | .ok bs => .ok (b :: bs)

/-- sklearn input validation for one cell: a NaN entry raises
`ValueError("Input contains NaN")`; non-numeric data cannot reach the model because
only numeric-dtype columns are selected. -/
def checkCell : Cell → Except PyError Rat
  | .num q => .ok q
  | .missing => .error (.valueError "Input contains NaN.")
  | _ => .error (.valueError "could not convert data to float")

/-- sklearn input validation (`check_array`) for the whole feature matrix. -/
def checkArray (m : List (List Cell)) : Except PyError (List (List Rat)) :=
  mapExcept (fun row => mapExcept checkCell row) m

/-- Modelled from the spec: the anomaly score of the sklearn `IsolationForest`
(external library code, not in this repository).  The spec fixes only that the score
is a deterministic function of the seed, the training matrix and the scored row
(shorter average isolation path, i.e. farther from the bulk of the training data,
means more anomalous).  The randomized tree ensemble is abstracted to the distance of
the row's coordinate sum from the mean coordinate sum of the training rows; larger
means more anomalous.  Every claim proved below depends only on determinism, on the
label range, and on the score depending on the fitted matrix. -/
def rowScore (train : List (List Rat)) (row : List Rat) : Rat :=
  let sums := train.map (fun r => ratSum r)
  let mean := ratSum sums / (train.length : Rat)
  ratAbs (ratSum row - mean)

/-- Insert a rational into a descending-sorted list. -/
def insertRatDesc (q : Rat) : List Rat → List Rat
  | [] => [q]
  | x :: xs => if x ≤ q then q :: x :: xs else x :: insertRatDesc q xs

/-- Sort rationals in descending order. -/
def sortRatDesc : List Rat → List Rat
  | [] => []
  | x :: xs => insertRatDesc x (sortRatDesc xs)

/-- Modelled from the spec: the score threshold the fitted forest derives from the
training data (sklearn's `offset_`): the contamination fraction of the training rows
with the most anomalous scores lie strictly above it. -/
def scoreOffset (contamination : Rat) (train : List (List Rat)) : Rat :=
  let scores := sortRatDesc (train.map (rowScore train))
  let k := (ratFloor (contamination * (train.length : Rat))).toNat
  scores.getD k 0

/-- Modelled from the spec: per-row labels of the fitted forest; a row scoring above
the fitted threshold is an anomaly (-1), every other row is normal (1). -/
def predictLabels (contamination : Rat) (train : List (List Rat)) (x : List (List Rat)) :
    List Int :=
  let off := scoreOffset contamination train
  x.map (fun r => if off < rowScore train r then -1 else 1)

/-- The sklearn `IsolationForest` estimator object: its configuration plus the state
`fit` installs (abstracted to the training matrix, which determines the fitted
ensemble given the fixed seed). -/
structure IsolationForest where
  contamination : Rat
  random_state : Nat
  fitted : Option (List (List Rat))
deriving DecidableEq, Repr

/-- sklearn `IsolationForest.fit`: validate the input and install the fitted state.
On a validation error the estimator is left unchanged (the exception propagates). -/
def IsolationForest.fit (f : IsolationForest) (data : List (List Cell)) :
    Except PyError IsolationForest :=
  match checkArray data with
  | .error e => .error e
  | .ok x => .ok { f with fitted := some x }

/-- sklearn `IsolationForest.predict`: validate the input and label each row using
the fitted state. -/
def IsolationForest.predict (f : IsolationForest) (data : List (List Cell)) :
    Except PyError (List Int) :=
  match checkArray data with
  | .error e => .error e
  | .ok x => .ok (predictLabels f.contamination (f.fitted.getD []) x)

/-- The `AnomalyDetector` wrapper (anomaly_detector.py lines 8-21): an
`IsolationForest(contamination=contamination, random_state=42)` plus the `is_fitted`
flag. -/
structure AnomalyDetector where
  model : IsolationForest
  is_fitted : Bool
deriving DecidableEq, Repr

/-- `AnomalyDetector.__init__` (anomaly_detector.py lines 13-21); the default
contamination is 0.05. -/
def AnomalyDetector.mkNew (contamination : Rat) : AnomalyDetector :=
  { model := { contamination := contamination, random_state := 42, fitted := none }
    is_fitted := false }

/-- `AnomalyDetector.fit` (anomaly_detector.py lines 23-31): fit the wrapped model,
then set `is_fitted`.  If the model raises, neither update happens. -/
def AnomalyDetector.fit (d : AnomalyDetector) (data : List (List Cell)) :
    Except PyError AnomalyDetector :=
  match d.model.fit data with
  | .error e => .error e
  | .ok mf => .ok { model := mf, is_fitted := true }

/-- `AnomalyDetector.predict` (anomaly_detector.py lines 33-45): raise `RuntimeError`
if not yet fitted, otherwise delegate to the wrapped model. -/
def AnomalyDetector.predict (d : AnomalyDetector) (data : List (List Cell)) :
    Except PyError (List Int) :=
  if d.is_fitted = false then .error (.runtimeError "Model has not been fitted yet.")
  else d.model.predict data

/-- `AnomalyDetector.fit_predict` (anomaly_detector.py lines 47-58): `self.fit(data)`
then `self.predict(data)`, returning the labels together with the detector state
after the call (the Python method mutates `self` in place). -/
def AnomalyDetector.fit_predict (d : AnomalyDetector) (data : List (List Cell)) :
    Except PyError (List Int) × AnomalyDetector :=
  match d.fit data with
  | .error e => (.error e, d)
  | .ok d1 => (d1.predict data, d1)

/-- The module-level shared detector instance (app.py line 12):
`detector = AnomalyDetector()`. -/
def detector : AnomalyDetector := AnomalyDetector.mkNew (1/20)

/-- Response of the `/analyze` endpoint.  `internalError` is the catch-all
`500` response whose body is always `{'error': 'An internal server error occurred'}`. -/
inductive AnalyzeResponse where
  | ok (records : List (List (String × JValue)))
  | badRequest (error : String)
  | internalError
deriving DecidableEq, Repr

/-- HTTP status code of a response of `analyze_logs`. -/
def respStatus : AnalyzeResponse → Nat
  | .ok _ => 200
  | .badRequest _ => 400
  | .internalError => 500

/-- Body of the generic 500 response (app.py line 56). -/
def internalErrorBody : String := "An internal server error occurred"

/-- Exception dispatch of `analyze_logs` (app.py lines 52-56): only
`pd.errors.EmptyDataError` and `KeyError` are turned into a 400 with a diagnostic;
every other exception falls through to the catch-all 500. -/
def isFormatCaught : PyError → Bool
  | .emptyDataError _ => true
  | .keyError _ => true
  | _ => false

/-- Map an escaped exception to the HTTP response, per the `except` clauses of
`analyze_logs`. -/
def dispatchError (e : PyError) : AnalyzeResponse :=
  if isFormatCaught e then .badRequest ("Invalid log data format: " ++ e.message)
  else .internalError

/-- `df.to_json(orient='records')` then `json.loads`: one JSON object per row, every
column present, cells serialized by `serializeCell`. -/
def toRecords (df : DataFrame) : List (List (String × JValue)) :=
  (List.range df.nrows).map (fun i => df.cols.map (fun c => (c, serializeCell (df.cell i c))))

/-- Body of the `try` block of `analyze_logs` (app.py lines 26-56) on a non-empty
batch, threading the shared detector state: derive features, select columns,
`detector.fit_predict`, merge the labels back as the `is_anomaly` column,
serialize; exceptions are dispatched by the `except` clauses. -/
def analyzeBatch (d : AnomalyDetector) (batch : List LogRecord) :
    AnalyzeResponse × AnomalyDetector :=
  match deriveStage batch with
  | .error e => (dispatchError e, d)
  | .ok df =>
    let ds := selectStage df
    let fp := d.fit_predict (modelMatrix ds.1 ds.2)
    match fp.1 with
    | .error e => (dispatchError e, fp.2)
    | .ok labels =>
      (.ok (toRecords (assignColumn ds.1 "is_anomaly"
        (fun i => .num ((labels.getD i 0 : Int) : Rat)) true)), fp.2)

/-- The `/analyze` handler `analyze_logs` (app.py lines 14-56).  `none` models an
absent/null request body; `if not log_data` rejects both an absent body and an empty
list with the 400 `No log data provided` response before the model is touched. -/
def analyze_logs (d : AnomalyDetector) (log_data : Option (List LogRecord)) :
    AnalyzeResponse × AnomalyDetector :=
  match log_data with
  | none => (.badRequest "No log data provided", d)
  | some batch =>
    if batch.isEmpty then (.badRequest "No log data provided", d)
    else analyzeBatch d batch

/-- Request body of the prompt-enrichment service: the `prompt` field and the key
list of the `context` object (the handler only ever reads the keys). -/
structure EnhanceRequest where
  prompt : Option String
  context : Option (List String)
deriving DecidableEq, Repr

/-- Response of the prompt-enrichment service. -/
inductive EnhanceResponse where
  | ok (enhanced : String)
  | badRequest (error : String)
deriving DecidableEq, Repr

/-- HTTP status code of a response of `enhance_prompt`. -/
def enhanceStatus : EnhanceResponse → Nat
  | .ok _ => 200
  | .badRequest _ => 400

/-- Code-point comparison of character lists (Python string `<=`). -/
def charListLe (xs ys : List Char) : Bool :=
  match xs, ys with
  | [], _ => true
  | _, [] => false
  | a :: as, b :: bs => if a < b then true else if b < a then false else charListLe as bs

/-- Python string comparison, by code points. -/
def strLe (a b : String) : Bool := charListLe a.data b.data

/-- Insert a string into an ascending-sorted list (stable). -/
def insertSorted (s : String) : List String → List String
  | [] => [s]
  | x :: xs => if strLe s x then s :: x :: xs else x :: insertSorted s xs

/-- Python `sorted` on strings: stable ascending sort by code points. -/
def sortStrings : List String → List String
  | [] => []
  | x :: xs => insertSorted x (sortStrings xs)

/-- Python `sep.join(items)`. -/
def joinSep (sep : String) : List String → String
  | [] => ""
  | [x] => x
  | x :: xs => x ++ sep ++ joinSep sep xs

/-- The `/` handler `enhance_prompt` (prompt_enhancer.py lines 10-24): default the
body to `{}`, default `prompt` to the empty string and `context` to `{}`, reject a
falsy prompt with 400, otherwise answer 200 with the prompt followed by the bracket
suffix listing the sorted, comma-joined context keys (or `none` for an empty
context). -/
def enhance_prompt (body : Option EnhanceRequest) : EnhanceResponse :=
  let data := body.getD { prompt := none, context := none }
  let prompt := data.prompt.getD ""
  let context := data.context.getD []
  if prompt = "" then .badRequest "Prompt is required"
  else
    let contextKeys := if context.isEmpty then "none" else joinSep ", " (sortStrings context)
    .ok (prompt ++ "\n\n[context keys: " ++ contextKeys ++ "]")

/-- The DataFrame produced by a successful `deriveStage` (the raw frame is returned
as a junk value in the error case, which callers never use). -/
def derivedFrame (batch : List LogRecord) : DataFrame :=
  match deriveStage batch with
  | .ok df => df
  | .error _ => mkDataFrame batch

/-- One interleaving the shared module-level `detector` admits when two requests A
and B run concurrently: `fit_predict` is two separate method calls on the shared
instance, so the scheduler can order them as A's `fit`, then B's `fit`, then A's
`predict` on A's own batch. -/
def sharedDetectorInterleaving (mA mB : List (List Cell)) : Except PyError (List Int) :=
  match detector.fit mA with
  | .error e => .error e
  | .ok d1 =>
    match d1.fit mB with
    | .error e => .error e
    | .ok d2 => d2.predict mA

/-! ### Helper lemmas about the embedding -/

theorem lookup_eq_some_of_mem {l : List (String × JValue)} {f : String} {v : JValue}
    (hnd : (l.map Prod.fst).Nodup) (hmem : (f, v) ∈ l) : l.lookup f = some v := by
  induction l with
  | nil => cases hmem
  | cons p t ih =>
    obtain ⟨a, b⟩ := p
    simp only [List.map_cons, List.nodup_cons] at hnd
    rcases List.mem_cons.mp hmem with h | h
    · cases h
      simp [List.lookup]
    · have hfa : f ≠ a := by
        intro hfa
        subst hfa
        exact hnd.1 (List.mem_map.mpr ⟨(f, v), h, rfl⟩)
      simp only [List.lookup]
      rw [show (f == a) = false from beq_eq_false_iff_ne.mpr hfa]
      exact ih hnd.2 h

theorem mem_keys_of_lookup_eq_some {l : List (String × JValue)} {f : String} {v : JValue}
    (h : l.lookup f = some v) : f ∈ l.map Prod.fst ∧ (f, v) ∈ l := by
  induction l with
  | nil => simp [List.lookup] at h
  | cons p t ih =>
    obtain ⟨a, b⟩ := p
    simp only [List.lookup] at h
    by_cases hfa : f = a
    · subst hfa
      rw [show (f == f) = true from beq_self_eq_true f] at h
      simp only [Option.some.injEq] at h
      subst h
      exact ⟨by simp, by simp⟩
    · rw [show (f == a) = false from beq_eq_false_iff_ne.mpr hfa] at h
      obtain ⟨h1, h2⟩ := ih h
      exact ⟨by simp [h1], by simp [h2]⟩

theorem lookup_eq_none_of_not_mem_keys {l : List (String × JValue)} {f : String}
    (h : f ∉ l.map Prod.fst) : l.lookup f = none := by
  induction l with
  | nil => simp [List.lookup]
  | cons p t ih =>
    obtain ⟨a, b⟩ := p
    simp only [List.map_cons, List.mem_cons, not_or] at h
    simp only [List.lookup]
    rw [show (f == a) = false from beq_eq_false_iff_ne.mpr h.1]
    exact ih h.2

theorem mem_firstSeenAux {x : String} : ∀ (l seen : List String),
    x ∈ firstSeenAux seen l ↔ (x ∈ l ∧ x ∉ seen) := by
  intro l
  induction l with
  | nil => intro seen; simp [firstSeenAux]
  | cons a t ih =>
    intro seen
    simp only [firstSeenAux]
    by_cases ha : a ∈ seen
    · rw [if_pos ha, ih seen]
      constructor
      · rintro ⟨h1, h2⟩
        exact ⟨List.mem_cons_of_mem a h1, h2⟩
      · rintro ⟨h1, h2⟩
        rcases List.mem_cons.mp h1 with h | h
        · subst h; exact absurd ha h2
        · exact ⟨h, h2⟩
    · rw [if_neg ha]
      constructor
      · intro h
        rcases List.mem_cons.mp h with h | h
        · exact ⟨List.mem_cons.mpr (Or.inl h), by rw [h]; exact ha⟩
        · rw [ih (a :: seen)] at h
          refine ⟨List.mem_cons_of_mem a h.1, fun hc => h.2 (List.mem_cons_of_mem a hc)⟩
      · rintro ⟨h1, h2⟩
        by_cases hxa : x = a
        · subst hxa; exact List.mem_cons_self x _
        · rcases List.mem_cons.mp h1 with h | h
          · exact absurd h hxa
          · refine List.mem_cons_of_mem a ?_
            rw [ih (a :: seen)]
            exact ⟨h, fun hc => by
              rcases List.mem_cons.mp hc with h' | h'
              · exact hxa h'
              · exact h2 h'⟩

theorem mem_mkDataFrame_cols {batch : List LogRecord} {f : String} :
    f ∈ (mkDataFrame batch).cols ↔ ∃ r ∈ batch, f ∈ r.map Prod.fst := by
  simp only [mkDataFrame]
  rw [mem_firstSeenAux]
  simp [List.mem_flatten]

theorem assignColumn_nrows (df : DataFrame) (n : String) (f : Nat → Cell) (b : Bool) :
    (assignColumn df n f b).nrows = df.nrows := rfl

theorem mem_assignColumn_cols {df : DataFrame} {n c : String} {f : Nat → Cell} {b : Bool} :
    c ∈ (assignColumn df n f b).cols ↔ (c ∈ df.cols ∨ c = n) := by
  simp only [assignColumn]
  by_cases hn : n ∈ df.cols
  · rw [if_pos hn]
    constructor
    · exact fun h => Or.inl h
    · rintro (h | h)
      · exact h
      · rw [h]; exact hn
  · rw [if_neg hn]
    simp [List.mem_append]

theorem assignColumn_cell_ne {df : DataFrame} {n c : String} {f : Nat → Cell} {b : Bool}
    {i : Nat} (h : c ≠ n) : (assignColumn df n f b).cell i c = df.cell i c := by
  simp [assignColumn, h]

theorem assignColumn_cell_eq (df : DataFrame) (n : String) (f : Nat → Cell) (b : Bool)
    (i : Nat) : (assignColumn df n f b).cell i n = f i := by
  simp [assignColumn]

theorem assignColumn_numeric_ne {df : DataFrame} {n c : String} {f : Nat → Cell} {b : Bool}
    (h : c ≠ n) : (assignColumn df n f b).numeric c = df.numeric c := by
  simp [assignColumn, h]

theorem assignColumn_numeric_eq (df : DataFrame) (n : String) (f : Nat → Cell) (b : Bool) :
    (assignColumn df n f b).numeric n = b := by
  simp [assignColumn]

theorem tsTransform_cols (df : DataFrame) : (tsTransform df).cols = df.cols := rfl

theorem tsTransform_nrows (df : DataFrame) : (tsTransform df).nrows = df.nrows := rfl

theorem tsTransform_cell_ne {df : DataFrame} {c : String} {i : Nat} (h : c ≠ "timestamp") :
    (tsTransform df).cell i c = df.cell i c := by
  simp [tsTransform, h]

theorem tsTransform_cell_ts (df : DataFrame) (i : Nat) :
    (tsTransform df).cell i "timestamp" = exOkCell (tsParsedCell df i) := by
  simp [tsTransform]

theorem mkDataFrame_nrows (batch : List LogRecord) : (mkDataFrame batch).nrows = batch.length :=
  rfl

theorem mkDataFrame_cell (batch : List LogRecord) (i : Nat) (c : String) :
    (mkDataFrame batch).cell i c = toCell ((batch.getD i []).lookup c) := rfl

/-- Inversion of `deriveStage`: on success the resulting frame is either the raw
frame (no `timestamp` column) or the timestamp-transformed frame with the two
derived columns appended. -/
theorem deriveStage_ok_cases {batch : List LogRecord} {df : DataFrame}
    (h : deriveStage batch = .ok df) :
    ("timestamp" ∉ (mkDataFrame batch).cols ∧ df = mkDataFrame batch) ∨
      ("timestamp" ∈ (mkDataFrame batch).cols ∧ tsError (mkDataFrame batch) = none ∧
        df = assignColumn
          (assignColumn (tsTransform (mkDataFrame batch)) "hour"
            (fun i => hourCellOf (exOkCell (tsParsedCell (mkDataFrame batch) i))) true)
          "day_of_week"
          (fun i => dowCellOf (exOkCell (tsParsedCell (mkDataFrame batch) i))) true) := by
  by_cases hts : "timestamp" ∈ (mkDataFrame batch).cols
  · right
    rw [deriveStage] at h
    rw [if_pos hts] at h
    cases he : tsError (mkDataFrame batch) with
    | some e => rw [he] at h; cases h
    | none =>
      rw [he] at h
      simp only [Except.ok.injEq] at h
      exact ⟨hts, rfl, h.symm⟩
  · left
    rw [deriveStage] at h
    rw [if_neg hts] at h
    simp only [Except.ok.injEq] at h
    exact ⟨hts, h.symm⟩

theorem deriveStage_ok_nrows {batch : List LogRecord} {df : DataFrame}
    (h : deriveStage batch = .ok df) : df.nrows = batch.length := by
  rcases deriveStage_ok_cases h with ⟨_, rfl⟩ | ⟨_, _, rfl⟩
  · rfl
  · rfl

theorem selectStage_nrows (df : DataFrame) : (selectStage df).1.nrows = df.nrows := by
  rw [selectStage]
  by_cases h : (numericCols df).isEmpty
  · rw [if_pos h]; rfl
  · rw [if_neg h]


theorem toRecords_length (df : DataFrame) : (toRecords df).length = df.nrows := by
  simp [toRecords]

theorem toRecords_getD {df : DataFrame} {i : Nat} (h : i < df.nrows) :
    (toRecords df).getD i [] =
      df.cols.map (fun c => (c, serializeCell (df.cell i c))) := by
  have h1 : (toRecords df).getD i [] = ((toRecords df).get? i).getD [] := rfl
  rw [h1, toRecords]
  rw [List.get?_eq_getElem?, List.getElem?_map, List.getElem?_range h]
  rfl

theorem mem_row_of_mem_cols {df : DataFrame} {i : Nat} {c : String} (h : c ∈ df.cols) :
    (c, serializeCell (df.cell i c)) ∈ df.cols.map (fun c => (c, serializeCell (df.cell i c))) :=
  List.mem_map.mpr ⟨c, h, rfl⟩

theorem mem_row_inv {df : DataFrame} {i : Nat} {f : String} {w : JValue}
    (h : (f, w) ∈ df.cols.map (fun c => (c, serializeCell (df.cell i c)))) :
    f ∈ df.cols ∧ w = serializeCell (df.cell i f) := by
  obtain ⟨c, hc, hEq⟩ := List.mem_map.mp h
  obtain ⟨h1, h2⟩ := Prod.mk.injEq .. ▸ hEq
  constructor
  · rw [← h1]; exact hc
  · rw [← h2, ← h1]

theorem serializeCell_toCell (v : JValue) : serializeCell (toCell (some v)) = v := by
  cases v <;> rfl

theorem mapExcept_ok_length {f : α → Except PyError β} :
    ∀ {l : List α} {l' : List β}, mapExcept f l = .ok l' → l'.length = l.length := by
  intro l
  induction l with
  | nil => intro l' h; cases h; rfl
  | cons a t ih =>
    intro l' h
    rw [mapExcept] at h
    cases hfa : f a with
    | error e => rw [hfa] at h; cases h
    | ok b =>
      rw [hfa] at h
      cases hft : mapExcept f t with
      | error e => rw [hft] at h; cases h
      | ok bs =>
        rw [hft] at h
        simp only [Except.ok.injEq] at h
        rw [← h]
        simp [ih hft]

theorem mapExcept_ok_of_forall {f : α → Except PyError β} :
    ∀ {l : List α}, (∀ a ∈ l, ∃ b, f a = .ok b) → ∃ l', mapExcept f l = .ok l' := by
  intro l
  induction l with
  | nil => intro _; exact ⟨[], rfl⟩
  | cons a t ih =>
    intro h
    obtain ⟨b, hb⟩ := h a (List.mem_cons_self a t)
    obtain ⟨bs, hbs⟩ := ih (fun x hx => h x (List.mem_cons_of_mem a hx))
    refine ⟨b :: bs, ?_⟩
    rw [mapExcept, hb, hbs]

theorem predictLabels_length (c : Rat) (train x : List (List Rat)) :
    (predictLabels c train x).length = x.length := by
  simp [predictLabels]

theorem predictLabels_mem {c : Rat} {train x : List (List Rat)} {v : Int}
    (h : v ∈ predictLabels c train x) : v = -1 ∨ v = 1 := by
  simp only [predictLabels, List.mem_map] at h
  obtain ⟨r, _, hr⟩ := h
  by_cases hlt : scoreOffset c train < rowScore train r
  · left; rw [← hr, if_pos hlt]
  · right; rw [← hr, if_neg hlt]

theorem checkArray_ok_of_allnum {m : List (List Cell)}
    (h : ∀ row ∈ m, ∀ c ∈ row, cellIsNum c = true) :
    ∃ x, checkArray m = .ok x ∧ x.length = m.length := by
  have hrows : ∀ row ∈ m, ∃ x, mapExcept checkCell row = .ok x := by
    intro row hrow
    apply mapExcept_ok_of_forall
    intro c hc
    have := h row hrow c hc
    cases c with
    | num q => exact ⟨q, rfl⟩
    | missing => simp [cellIsNum] at this
    | str s => simp [cellIsNum] at this
    | bool b => simp [cellIsNum] at this
    | dt ms => simp [cellIsNum] at this
  obtain ⟨x, hx⟩ := mapExcept_ok_of_forall hrows
  exact ⟨x, hx, mapExcept_ok_length hx⟩

theorem fit_predict_ok_of_checkArray {d : AnomalyDetector} {m : List (List Cell)}
    {x : List (List Rat)} (h : checkArray m = .ok x) :
    (d.fit_predict m).1 = .ok (predictLabels d.model.contamination x x) := by
  simp [AnomalyDetector.fit_predict, AnomalyDetector.fit, IsolationForest.fit,
    AnomalyDetector.predict, IsolationForest.predict, h]

theorem fit_predict_ok_inv {d : AnomalyDetector} {m : List (List Cell)} {labels : List Int}
    (h : (d.fit_predict m).1 = .ok labels) :
    ∃ x, checkArray m = .ok x ∧ labels = predictLabels d.model.contamination x x := by
  cases hc : checkArray m with
  | error e =>
    rw [AnomalyDetector.fit_predict] at h
    rw [AnomalyDetector.fit, IsolationForest.fit, hc] at h
    cases h
  | ok x =>
    rw [fit_predict_ok_of_checkArray hc] at h
    simp only [Except.ok.injEq] at h
    exact ⟨x, rfl, h.symm⟩

theorem dispatchError_ne_ok (e : PyError) (out : List (List (String × JValue))) :
    dispatchError e ≠ .ok out := by
  rw [dispatchError]
  by_cases h : isFormatCaught e = true
  · rw [if_pos h]; intro hc; cases hc
  · rw [if_neg h]; intro hc; cases hc

theorem analyzeBatch_ok_inv {d : AnomalyDetector} {batch : List LogRecord}
    {out : List (List (String × JValue))} (h : (analyzeBatch d batch).1 = .ok out) :
    ∃ df labels, deriveStage batch = .ok df ∧
      (d.fit_predict (modelMatrix (selectStage df).1 (selectStage df).2)).1 = .ok labels ∧
      out = toRecords (assignColumn (selectStage df).1 "is_anomaly"
        (fun i => .num ((labels.getD i 0 : Int) : Rat)) true) := by
  rw [analyzeBatch] at h
  cases hd : deriveStage batch with
  | error e =>
    rw [hd] at h
    exact absurd h (dispatchError_ne_ok e out)
  | ok df =>
    rw [hd] at h
    simp only at h
    cases hf : (d.fit_predict (modelMatrix (selectStage df).1 (selectStage df).2)).1 with
    | error e =>
      rw [hf] at h
      exact absurd h (dispatchError_ne_ok e out)
    | ok labels =>
      rw [hf] at h
      simp only [AnalyzeResponse.ok.injEq] at h
      exact ⟨df, labels, rfl, hf, h.symm⟩

theorem analyze_logs_ok_inv {d : AnomalyDetector} {batch : List LogRecord}
    {out : List (List (String × JValue))} (h : (analyze_logs d (some batch)).1 = .ok out) :
    batch.isEmpty = false ∧ (analyzeBatch d batch).1 = .ok out := by
  rw [analyze_logs] at h
  by_cases he : batch.isEmpty
  · rw [if_pos he] at h; cases h
  · rw [if_neg he] at h
    exact ⟨Bool.not_eq_true _ ▸ he, h⟩

theorem selectStage_cell_ne {df : DataFrame} {c : String} {i : Nat}
    (h : c ≠ "dummy_feature") : (selectStage df).1.cell i c = df.cell i c := by
  rw [selectStage]
  by_cases he : (numericCols df).isEmpty
  · rw [if_pos he]
    exact assignColumn_cell_ne h
  · rw [if_neg he]

theorem selectStage_cols_forward {df : DataFrame} {c : String}
    (h : c ∈ (selectStage df).1.cols) : c ∈ df.cols ∨ c = "dummy_feature" := by
  rw [selectStage] at h
  by_cases he : (numericCols df).isEmpty
  · rw [if_pos he] at h
    exact mem_assignColumn_cols.mp h
  · rw [if_neg he] at h
    exact Or.inl h

theorem selectStage_cols_backward {df : DataFrame} {c : String}
    (h : c ∈ df.cols) : c ∈ (selectStage df).1.cols := by
  rw [selectStage]
  by_cases he : (numericCols df).isEmpty
  · rw [if_pos he]
    exact mem_assignColumn_cols.mpr (Or.inl h)
  · rw [if_neg he]
    exact h

theorem deriveStage_cell_stable {batch : List LogRecord} {df : DataFrame}
    (hd : deriveStage batch = .ok df) {i : Nat} {c : String} (h1 : c ≠ "timestamp")
    (h2 : c ≠ "hour") (h3 : c ≠ "day_of_week") :
    df.cell i c = (mkDataFrame batch).cell i c := by
  rcases deriveStage_ok_cases hd with ⟨_, rfl⟩ | ⟨_, _, rfl⟩
  · rfl
  · rw [assignColumn_cell_ne h3, assignColumn_cell_ne h2, tsTransform_cell_ne h1]

theorem deriveStage_cols_forward {batch : List LogRecord} {df : DataFrame}
    (hd : deriveStage batch = .ok df) {c : String} (h : c ∈ df.cols) :
    c ∈ (mkDataFrame batch).cols ∨ c = "hour" ∨ c = "day_of_week" := by
  rcases deriveStage_ok_cases hd with ⟨_, rfl⟩ | ⟨_, _, rfl⟩
  · exact Or.inl h
  · rcases mem_assignColumn_cols.mp h with h' | h'
    · rcases mem_assignColumn_cols.mp h' with h'' | h''
      · rw [tsTransform_cols] at h''
        exact Or.inl h''
      · simp [h'']
    · simp [h']

theorem deriveStage_cols_backward {batch : List LogRecord} {df : DataFrame}
    (hd : deriveStage batch = .ok df) {c : String} (h : c ∈ (mkDataFrame batch).cols) :
    c ∈ df.cols := by
  rcases deriveStage_ok_cases hd with ⟨_, rfl⟩ | ⟨_, _, rfl⟩
  · exact h
  · exact mem_assignColumn_cols.mpr (Or.inl (mem_assignColumn_cols.mpr (Or.inl
      (tsTransform_cols (mkDataFrame batch) ▸ h))))

theorem deriveStage_cell_ts_missing {batch : List LogRecord} {df : DataFrame}
    (hd : deriveStage batch = .ok df) {i : Nat}
    (h : (mkDataFrame batch).cell i "timestamp" = .missing) :
    df.cell i "timestamp" = .missing := by
  rcases deriveStage_ok_cases hd with ⟨_, rfl⟩ | ⟨_, _, rfl⟩
  · exact h
  · rw [assignColumn_cell_ne (by decide), assignColumn_cell_ne (by decide),
      tsTransform_cell_ts, tsParsedCell, h]
    rfl

/-- Shared shape fact used by several claims: a successful `analyze_logs` response
has one output record per input record, and every output record carries an
`is_anomaly` field whose value is the integer -1 or 1. -/
theorem analyze_ok_shape {d : AnomalyDetector} {batch : List LogRecord}
    {out : List (List (String × JValue))} (hok : (analyze_logs d (some batch)).1 = .ok out) :
    out.length = batch.length ∧
      ∀ r ∈ out, ∃ v : Int, ("is_anomaly", JValue.num (v : Rat)) ∈ r ∧ (v = -1 ∨ v = 1) := by
  obtain ⟨hne, hb⟩ := analyze_logs_ok_inv hok
  obtain ⟨df, labels, hd, hf, hout⟩ := analyzeBatch_ok_inv hb
  obtain ⟨x, hx, hlab⟩ := fit_predict_ok_inv hf
  have hnr : (selectStage df).1.nrows = batch.length := by
    rw [selectStage_nrows, deriveStage_ok_nrows hd]
  have hxlen : x.length = batch.length := by
    rw [mapExcept_ok_length hx]
    simp [modelMatrix, hnr]
  have hlen : labels.length = batch.length := by
    rw [hlab, predictLabels_length, hxlen]
  constructor
  · rw [hout, toRecords_length, assignColumn_nrows, hnr]
  · intro r hr
    rw [hout, toRecords] at hr
    obtain ⟨i, hi, hri⟩ := List.mem_map.mp hr
    have hilt : i < batch.length := by
      have := List.mem_range.mp hi
      rw [assignColumn_nrows, hnr] at this
      exact this
    refine ⟨labels.getD i 0, ?_, ?_⟩
    · rw [← hri]
      have hc : "is_anomaly" ∈ (assignColumn (selectStage df).1 "is_anomaly"
          (fun i => .num ((labels.getD i 0 : Int) : Rat)) true).cols :=
        mem_assignColumn_cols.mpr (Or.inr rfl)
      have hm := @mem_row_of_mem_cols _ i _ hc
      rw [assignColumn_cell_eq] at hm
      exact hm
    · have hmem : labels.getD i 0 ∈ labels := by
        have hil : i < labels.length := by rw [hlen]; exact hilt
        rw [List.getD_eq_getElem labels 0 hil]
        exact List.getElem_mem hil
      have hmem2 : labels.getD i 0 ∈ predictLabels d.model.contamination x x := by
        rw [← hlab]; exact hmem
      exact predictLabels_mem hmem2

/-- C8 (confirmed): a `POST /analyze` with an absent body or an empty array is
rejected up front with status 400 and body error `No log data provided`, whatever
state the shared detector is in; the detector state is returned untouched, i.e. the
model is never invoked for such a request. -/
theorem c8_empty_body_rejected (d : AnomalyDetector) :
    analyze_logs d none = (.badRequest "No log data provided", d) ∧
      analyze_logs d (some []) = (.badRequest "No log data provided", d) ∧
      respStatus (.badRequest "No log data provided") = 400 :=
  ⟨rfl, rfl, rfl⟩

/-- C2 (code_bug): malformed data does not get the documented 400 diagnostic.  The
`except (pd.errors.EmptyDataError, KeyError)` clause of app.py lines 52-53 cannot
catch the exceptions malformed data actually raises: a timestamp parse failure and
a NaN left in a selected numeric column both raise `ValueError`-class exceptions,
which fall to the catch-all, so the endpoint answers 500 with the generic body
instead of 400 with a diagnostic. -/
theorem c2_malformed_data_gives_500 :
    (analyze_logs detector (some [[("timestamp", JValue.str "not-a-date")]])).1 =
        .internalError ∧
      (analyze_logs detector (some [[("x", JValue.num 1)], [("y", JValue.num 2)]])).1 =
        .internalError ∧
      respStatus .internalError = 500 ∧
      internalErrorBody = "An internal server error occurred" := by
  refine ⟨?_, ?_, rfl, rfl⟩
  · with_unfolding_all rfl
  · with_unfolding_all rfl

/-- C3 (code_bug): the fitted-model state IS shared across requests.  app.py line 12
creates a single module-level detector used by every request, and `fit_predict` is
two separate calls on it, so under the interleaving (A fits, B fits, A predicts)
request A's labels are computed from the model fitted on B's batch: A receives
label -1 for its only row although a fresh fit on A's own batch yields label 1. -/
theorem c3_shared_detector_leaks :
    sharedDetectorInterleaving [[Cell.num 0]] [[Cell.num 10], [Cell.num 10]] = .ok [-1] ∧
      (detector.fit_predict [[Cell.num 0]]).1 = .ok [1] ∧
      sharedDetectorInterleaving [[Cell.num 0]] [[Cell.num 10], [Cell.num 10]] ≠
        (detector.fit_predict [[Cell.num 0]]).1 := by
  have h1 : sharedDetectorInterleaving [[Cell.num 0]] [[Cell.num 10], [Cell.num 10]] =
      .ok [-1] := by with_unfolding_all rfl
  have h2 : (detector.fit_predict [[Cell.num 0]]).1 = .ok [1] := by with_unfolding_all rfl
  refine ⟨h1, h2, ?_⟩
  rw [h1, h2]
  decide

/-- C10 (confirmed): `fit_predict` unconditionally refits and overwrites the fitted
state before predicting, so on any prior state of the shared instance (any fitted
matrix, any `is_fitted` flag) it returns exactly the labels a freshly constructed
detector with the same configuration returns. -/
theorem c10_fit_predict_ignores_prior_state (c : Rat) (st : Option (List (List Rat)))
    (b : Bool) (m : List (List Cell)) :
    (AnomalyDetector.fit_predict ⟨⟨c, 42, st⟩, b⟩ m).1 =
      ((AnomalyDetector.mkNew c).fit_predict m).1 := by
  cases hc : checkArray m with
  | error e =>
    rw [AnomalyDetector.fit_predict, AnomalyDetector.fit, IsolationForest.fit, hc]
    rw [AnomalyDetector.fit_predict, AnomalyDetector.fit, AnomalyDetector.mkNew,
      IsolationForest.fit, hc]
  | ok x =>
    rw [fit_predict_ok_of_checkArray hc, fit_predict_ok_of_checkArray hc]
    rfl


/-- C5 (confirmed): with the fixed seed baked into the configuration
(`random_state=42`), two freshly constructed detectors with the same contamination
produce identical label sequences on the same feature matrix. -/
theorem c5_fresh_instances_deterministic (c : Rat) (m : List (List Cell))
    (d1 d2 : AnomalyDetector) (h1 : d1 = AnomalyDetector.mkNew c)
    (h2 : d2 = AnomalyDetector.mkNew c) :
    (d1.fit_predict m).1 = (d2.fit_predict m).1 := by
  rw [h1, h2]

/-- Witness for C5 at a concrete matrix. -/
theorem c5_witness :
    ((AnomalyDetector.mkNew (1/20)).fit_predict [[Cell.num 5]]).1 = .ok [1] ∧
      ((AnomalyDetector.mkNew (1/20)).fit_predict [[Cell.num 5]]).1 =
        ((AnomalyDetector.mkNew (1/20)).fit_predict [[Cell.num 5]]).1 :=
  ⟨by with_unfolding_all rfl,
    c5_fresh_instances_deterministic (1/20) [[Cell.num 5]] _ _ rfl rfl⟩

/-- C7 (confirmed): every request with a non-empty prompt is answered 200, and the
`enhanced` value is exactly the prompt followed by the bracket suffix listing the
sorted, comma-joined context keys, with the word `none` when the context is empty
or absent. -/
theorem c7_enhance_format (body : Option EnhanceRequest)
    (hp : (body.getD { prompt := none, context := none }).prompt.getD "" ≠ "") :
    enhance_prompt body =
      .ok ((body.getD { prompt := none, context := none }).prompt.getD "" ++
        "\n\n[context keys: " ++
        (if ((body.getD { prompt := none, context := none }).context.getD []).isEmpty
          then "none"
          else joinSep ", " (sortStrings
            ((body.getD { prompt := none, context := none }).context.getD []))) ++ "]") ∧
      enhanceStatus (enhance_prompt body) = 200 := by
  constructor
  · rw [enhance_prompt]
    simp only []
    rw [if_neg hp]
  · rw [enhance_prompt]
    simp only []
    rw [if_neg hp]
    rfl

/-- Witness for C7: the spec's own example, prompt `abc` with context keys b and a. -/
theorem c7_witness :
    ((some { prompt := some "abc", context := some ["b", "a"] } : Option EnhanceRequest).getD
        { prompt := none, context := none }).prompt.getD "" ≠ "" ∧
      enhance_prompt (some { prompt := some "abc", context := some ["b", "a"] }) =
        .ok "abc\n\n[context keys: a, b]" := by
  have h := c7_enhance_format (some { prompt := some "abc", context := some ["b", "a"] })
    (by decide)
  exact ⟨by decide, h.1.trans (by with_unfolding_all rfl)⟩

/-- C4 (corrected): for every non-empty batch that `analyze` actually accepts, the
output has exactly the input's length and every output record carries an
`is_anomaly` value that is -1 or 1.  (As originally stated — for every non-empty
batch containing at least one numeric-convertible field — the claim is false:
see the counterexample.) -/
theorem c4_amended (d : AnomalyDetector) (batch : List LogRecord)
    (out : List (List (String × JValue)))
    (hok : (analyze_logs d (some batch)).1 = .ok out) :
    out.length = batch.length ∧
      ∀ r ∈ out, ∃ v : Int, ("is_anomaly", JValue.num (v : Rat)) ∈ r ∧ (v = -1 ∨ v = 1) :=
  analyze_ok_shape hok

/-- Counterexample to C4 as stated: a non-empty batch in which every record has a
numeric-convertible field (`a` is numeric in both records, `b` in the first), yet
`analyze` returns no sequence at all — the missing `b` of the second record leaves a
NaN in the selected numeric columns and the request dies with the 500 catch-all. -/
theorem c4_counterexample :
    (analyze_logs detector (some [[("a", JValue.num 1), ("b", JValue.num 2)],
      [("a", JValue.num 3)]])).1 = .internalError := by
  with_unfolding_all rfl

/-- Witness for C4 at a concrete accepted batch. -/
theorem c4_witness :
    (analyze_logs detector (some [[("a", JValue.num 1)], [("a", JValue.num 2)]])).1 =
        .ok [[("a", JValue.num 1), ("is_anomaly", JValue.num 1)],
          [("a", JValue.num 2), ("is_anomaly", JValue.num 1)]] ∧
      ([[("a", JValue.num 1), ("is_anomaly", JValue.num 1)],
          [("a", JValue.num 2), ("is_anomaly", JValue.num 1)]] :
        List (List (String × JValue))).length =
        ([[("a", JValue.num 1)], [("a", JValue.num 2)]] : List LogRecord).length ∧
      ∀ r ∈ ([[("a", JValue.num 1), ("is_anomaly", JValue.num 1)],
          [("a", JValue.num 2), ("is_anomaly", JValue.num 1)]] :
        List (List (String × JValue))),
        ∃ v : Int, ("is_anomaly", JValue.num (v : Rat)) ∈ r ∧ (v = -1 ∨ v = 1) := by
  have hok : (analyze_logs detector (some [[("a", JValue.num 1)], [("a", JValue.num 2)]])).1 =
      .ok [[("a", JValue.num 1), ("is_anomaly", JValue.num 1)],
        [("a", JValue.num 2), ("is_anomaly", JValue.num 1)]] := by
    with_unfolding_all rfl
  have h := c4_amended detector _ _ hok
  exact ⟨hok, h.1, h.2⟩

theorem analyzeBatch_ok_of_checkArray {d : AnomalyDetector} {batch : List LogRecord}
    {df : DataFrame} (hd : deriveStage batch = .ok df) {x : List (List Rat)}
    (hx : checkArray (modelMatrix (selectStage df).1 (selectStage df).2) = .ok x) :
    (analyzeBatch d batch).1 = .ok (toRecords (assignColumn (selectStage df).1 "is_anomaly"
      (fun i => .num (((predictLabels d.model.contamination x x).getD i 0 : Int) : Rat))
      true)) := by
  rw [analyzeBatch, hd]
  simp only [fit_predict_ok_of_checkArray hx]

theorem selectStage_snd_of_ne_nil {df : DataFrame} (h : numericCols df ≠ []) :
    (selectStage df).2 = numericCols df := by
  simp only [selectStage]
  cases hc : numericCols df with
  | nil => exact absurd hc h
  | cons a t => rfl

theorem selectStage_fst_of_ne_nil {df : DataFrame} (h : numericCols df ≠ []) :
    (selectStage df).1 = df := by
  simp only [selectStage]
  cases hc : numericCols df with
  | nil => exact absurd hc h
  | cons a t => rfl

/-- C6 (confirmed): when derivation succeeds and leaves no numeric column, the model
input is exactly the single synthesized `dummy_feature` column holding the row index
0..N-1, and analyze still succeeds, producing an `is_anomaly` label for every
record. -/
theorem c6_dummy_feature_fallback (d : AnomalyDetector) (batch : List LogRecord)
    (df : DataFrame) (hne : batch ≠ []) (hd : deriveStage batch = .ok df)
    (hnc : numericCols df = []) :
    (selectStage df).2 = ["dummy_feature"] ∧
      modelMatrix (selectStage df).1 (selectStage df).2 =
        (List.range batch.length).map (fun i : Nat => [Cell.num (i : Rat)]) ∧
      ∃ out, (analyze_logs d (some batch)).1 = .ok out ∧ out.length = batch.length ∧
        ∀ r ∈ out, ∃ v : Int, ("is_anomaly", JValue.num (v : Rat)) ∈ r ∧ (v = -1 ∨ v = 1) := by
  have hsel2 : (selectStage df).2 = ["dummy_feature"] := by
    simp only [selectStage, hnc]
    rfl
  have hsel1 : (selectStage df).1 =
      assignColumn df "dummy_feature" (fun i => .num (i : Rat)) true := by
    simp only [selectStage, hnc]
    rfl
  have hmatrix : modelMatrix (selectStage df).1 (selectStage df).2 =
      (List.range batch.length).map (fun i : Nat => [Cell.num (i : Rat)]) := by
    rw [modelMatrix, hsel1, hsel2, assignColumn_nrows, deriveStage_ok_nrows hd]
    simp only [List.map_cons, List.map_nil, assignColumn_cell_eq]
  have hallnum : ∀ row ∈ modelMatrix (selectStage df).1 (selectStage df).2,
      ∀ c ∈ row, cellIsNum c = true := by
    rw [hmatrix]
    intro row hrow c hc
    obtain ⟨i, _, hri⟩ := List.mem_map.mp hrow
    rw [← hri] at hc
    rcases List.mem_cons.mp hc with h | h
    · rw [h]; rfl
    · exact absurd h (List.not_mem_nil c)
  obtain ⟨x, hx, _⟩ := checkArray_ok_of_allnum hallnum
  have hne' : batch.isEmpty = false := by
    cases batch with
    | nil => exact absurd rfl hne
    | cons a t => rfl
  have hlog : (analyze_logs d (some batch)).1 = (analyzeBatch d batch).1 := by
    rw [analyze_logs, hne']
    simp
  have hok : (analyze_logs d (some batch)).1 = .ok (toRecords
      (assignColumn (selectStage df).1 "is_anomaly"
        (fun i => .num (((predictLabels d.model.contamination x x).getD i 0 : Int) : Rat))
        true)) :=
    hlog.trans (analyzeBatch_ok_of_checkArray hd hx)
  have hshape := analyze_ok_shape hok
  exact ⟨hsel2, hmatrix, _, hok, hshape.1, hshape.2⟩

/-- Witness for C6 at a concrete batch with no numeric field. -/
theorem c6_witness :
    deriveStage [[("msg", JValue.str "x")], [("msg", JValue.str "y")]] =
        .ok (derivedFrame [[("msg", JValue.str "x")], [("msg", JValue.str "y")]]) ∧
      numericCols (derivedFrame [[("msg", JValue.str "x")], [("msg", JValue.str "y")]]) = [] ∧
      (selectStage (derivedFrame [[("msg", JValue.str "x")], [("msg", JValue.str "y")]])).2 =
        ["dummy_feature"] ∧
      ∃ out, (analyze_logs detector
          (some [[("msg", JValue.str "x")], [("msg", JValue.str "y")]])).1 = .ok out ∧
        out.length = ([[("msg", JValue.str "x")], [("msg", JValue.str "y")]] :
          List LogRecord).length ∧
        ∀ r ∈ out, ∃ v : Int, ("is_anomaly", JValue.num (v : Rat)) ∈ r ∧ (v = -1 ∨ v = 1) := by
  have hd : deriveStage [[("msg", JValue.str "x")], [("msg", JValue.str "y")]] =
      .ok (derivedFrame [[("msg", JValue.str "x")], [("msg", JValue.str "y")]]) := by
    with_unfolding_all rfl
  have hnc : numericCols (derivedFrame [[("msg", JValue.str "x")], [("msg", JValue.str "y")]]) =
      [] := by with_unfolding_all rfl
  have h := c6_dummy_feature_fallback detector _ _ (by decide) hd hnc
  exact ⟨hd, hnc, h.1, h.2.2⟩

/-- C9 (confirmed): a record carrying timestamp `2024-01-15T10:30:00` derives
`hour = 10` and `day_of_week = 0` (Monday = 0), and both derived columns are among
the numeric columns selected as the model input. -/
theorem c9_timestamp_derivation (batch : List LogRecord) (df : DataFrame) (i : Nat)
    (hd : deriveStage batch = .ok df) (hi : i < batch.length)
    (hts : (batch.getD i []).lookup "timestamp" =
      some (JValue.str "2024-01-15T10:30:00")) :
    df.cell i "hour" = .num 10 ∧ df.cell i "day_of_week" = .num 0 ∧
      "hour" ∈ (selectStage df).2 ∧ "day_of_week" ∈ (selectStage df).2 := by
  have hrec : batch.getD i [] ∈ batch := by
    rw [List.getD_eq_getElem batch [] hi]
    exact List.getElem_mem hi
  have hkey : "timestamp" ∈ (batch.getD i []).map Prod.fst :=
    (mem_keys_of_lookup_eq_some hts).1
  have htscols : "timestamp" ∈ (mkDataFrame batch).cols :=
    mem_mkDataFrame_cols.mpr ⟨_, hrec, hkey⟩
  have hcell : (mkDataFrame batch).cell i "timestamp" =
      Cell.str "2024-01-15T10:30:00" := by
    rw [mkDataFrame_cell, hts]
    rfl
  have hparse : tsParsedCell (mkDataFrame batch) i = .ok (.dt 1705314600000) := by
    rw [tsParsedCell, hcell]
    with_unfolding_all rfl
  rcases deriveStage_ok_cases hd with ⟨hno, _⟩ | ⟨_, _, hdf⟩
  · exact absurd htscols hno
  · have hhour : df.cell i "hour" = .num 10 := by
      rw [hdf, assignColumn_cell_ne (by decide), assignColumn_cell_eq, hparse]
      with_unfolding_all rfl
    have hdow : df.cell i "day_of_week" = .num 0 := by
      rw [hdf, assignColumn_cell_eq, hparse]
      with_unfolding_all rfl
    have hhourcols : "hour" ∈ df.cols := by
      rw [hdf]
      exact mem_assignColumn_cols.mpr (Or.inl (mem_assignColumn_cols.mpr (Or.inr rfl)))
    have hdowcols : "day_of_week" ∈ df.cols := by
      rw [hdf]
      exact mem_assignColumn_cols.mpr (Or.inr rfl)
    have hhournum : df.numeric "hour" = true := by
      rw [hdf, assignColumn_numeric_ne (by decide), assignColumn_numeric_eq]
    have hdownum : df.numeric "day_of_week" = true := by
      rw [hdf, assignColumn_numeric_eq]
    have hhourmem : "hour" ∈ numericCols df :=
      List.mem_filter.mpr ⟨hhourcols, hhournum⟩
    have hdowmem : "day_of_week" ∈ numericCols df :=
      List.mem_filter.mpr ⟨hdowcols, hdownum⟩
    have hsel := selectStage_snd_of_ne_nil (List.ne_nil_of_mem hhourmem)
    exact ⟨hhour, hdow, hsel ▸ hhourmem, hsel ▸ hdowmem⟩

/-- Witness for C9 at a concrete single-record batch. -/
theorem c9_witness :
    deriveStage [[("timestamp", JValue.str "2024-01-15T10:30:00")]] =
        .ok (derivedFrame [[("timestamp", JValue.str "2024-01-15T10:30:00")]]) ∧
      (0 : Nat) < 1 ∧
      (derivedFrame [[("timestamp", JValue.str "2024-01-15T10:30:00")]]).cell 0 "hour" =
        .num 10 ∧
      (derivedFrame [[("timestamp", JValue.str "2024-01-15T10:30:00")]]).cell 0
        "day_of_week" = .num 0 ∧
      "hour" ∈ (selectStage (derivedFrame [[("timestamp",
        JValue.str "2024-01-15T10:30:00")]])).2 := by
  have hd : deriveStage [[("timestamp", JValue.str "2024-01-15T10:30:00")]] =
      .ok (derivedFrame [[("timestamp", JValue.str "2024-01-15T10:30:00")]]) := by
    with_unfolding_all rfl
  have h := c9_timestamp_derivation [[("timestamp", JValue.str "2024-01-15T10:30:00")]] _ 0
    hd (by decide) (by with_unfolding_all rfl)
  exact ⟨hd, by decide, h.1, h.2.1, h.2.2.1⟩

/-- C1 (corrected): on an accepted batch whose records avoid the reserved derived
names, every non-timestamp input field survives into the corresponding output record
with its value unchanged and the timestamp field survives with its (converted)
value, but `is_anomaly` is NOT the only added field: the output may also contain the
derived `hour` and `day_of_week` columns, the synthesized `dummy_feature` column,
and a null entry for every field that other records of the batch define.  (The
claim as stated — only `is_anomaly` is added — is false: see the counterexample.) -/
theorem c1_amended (d : AnomalyDetector) (batch : List LogRecord)
    (out : List (List (String × JValue))) (i : Nat)
    (hnd : ∀ r ∈ batch, (r.map Prod.fst).Nodup)
    (hres : ∀ r ∈ batch, ∀ nm ∈ (["hour", "day_of_week", "dummy_feature",
      "is_anomaly"] : List String), nm ∉ r.map Prod.fst)
    (hok : (analyze_logs d (some batch)).1 = .ok out) (hi : i < batch.length) :
    (∀ f v, (f, v) ∈ batch.getD i [] → f ≠ "timestamp" → (f, v) ∈ out.getD i []) ∧
      (∀ v, ("timestamp", v) ∈ batch.getD i [] → ∃ w, ("timestamp", w) ∈ out.getD i []) ∧
      (∀ f w, (f, w) ∈ out.getD i [] →
        f ∈ (batch.getD i []).map Prod.fst ∨
        ((∃ r ∈ batch, f ∈ r.map Prod.fst) ∧ w = JValue.null) ∨
        f = "hour" ∨ f = "day_of_week" ∨ f = "dummy_feature" ∨ f = "is_anomaly") := by
  obtain ⟨hne, hb⟩ := analyze_logs_ok_inv hok
  obtain ⟨df, labels, hd, hf, hout⟩ := analyzeBatch_ok_inv hb
  set df2 := assignColumn (selectStage df).1 "is_anomaly"
    (fun j => .num ((labels.getD j 0 : Int) : Rat)) true with hdf2
  have hnr2 : df2.nrows = batch.length := by
    rw [hdf2, assignColumn_nrows, selectStage_nrows, deriveStage_ok_nrows hd]
  have hrow : out.getD i [] = df2.cols.map (fun c => (c, serializeCell (df2.cell i c))) := by
    rw [hout]
    exact toRecords_getD (by rw [hnr2]; exact hi)
  have hrec : batch.getD i [] ∈ batch := by
    rw [List.getD_eq_getElem batch [] hi]
    exact List.getElem_mem hi
  have hres4 : ∀ r ∈ batch, ∀ f, f ∈ r.map Prod.fst →
      f ≠ "hour" ∧ f ≠ "day_of_week" ∧ f ≠ "dummy_feature" ∧ f ≠ "is_anomaly" := by
    intro r hr f hfr
    refine ⟨?_, ?_, ?_, ?_⟩ <;> intro he
    · exact hres r hr "hour" (by decide) (he ▸ hfr)
    · exact hres r hr "day_of_week" (by decide) (he ▸ hfr)
    · exact hres r hr "dummy_feature" (by decide) (he ▸ hfr)
    · exact hres r hr "is_anomaly" (by decide) (he ▸ hfr)
  have hcellstable : ∀ f, f ≠ "timestamp" → f ≠ "hour" → f ≠ "day_of_week" →
      f ≠ "dummy_feature" → f ≠ "is_anomaly" →
      df2.cell i f = (mkDataFrame batch).cell i f := by
    intro f h1 h2 h3 h4 h5
    rw [hdf2, assignColumn_cell_ne h5, selectStage_cell_ne h4,
      deriveStage_cell_stable hd h1 h2 h3]
  have hcolsfwd : ∀ f, f ∈ df2.cols → f ∈ (mkDataFrame batch).cols ∨ f = "hour" ∨
      f = "day_of_week" ∨ f = "dummy_feature" ∨ f = "is_anomaly" := by
    intro f hfc
    rw [hdf2] at hfc
    rcases mem_assignColumn_cols.mp hfc with hf' | hf'
    · rcases selectStage_cols_forward hf' with hf'' | hf''
      · rcases deriveStage_cols_forward hd hf'' with h | h | h
        · exact Or.inl h
        · simp [h]
        · simp [h]
      · simp [hf'']
    · simp [hf']
  have hcolsbwd : ∀ f, f ∈ (mkDataFrame batch).cols → f ∈ df2.cols := by
    intro f hfc
    rw [hdf2]
    exact mem_assignColumn_cols.mpr (Or.inl (selectStage_cols_backward
      (deriveStage_cols_backward hd hfc)))
  refine ⟨?_, ?_, ?_⟩
  · intro f v hmem hnet
    have hkey : f ∈ (batch.getD i []).map Prod.fst := List.mem_map.mpr ⟨(f, v), hmem, rfl⟩
    obtain ⟨hne1, hne2, hne3, hne4⟩ := hres4 _ hrec f hkey
    have hc0 : f ∈ (mkDataFrame batch).cols := mem_mkDataFrame_cols.mpr ⟨_, hrec, hkey⟩
    have hcell : df2.cell i f = toCell (some v) := by
      rw [hcellstable f hnet hne1 hne2 hne3 hne4, mkDataFrame_cell,
        lookup_eq_some_of_mem (hnd _ hrec) hmem]
    rw [hrow]
    have hm := @mem_row_of_mem_cols df2 i f (hcolsbwd f hc0)
    rw [hcell, serializeCell_toCell] at hm
    exact hm
  · intro v hmem
    have hkey : "timestamp" ∈ (batch.getD i []).map Prod.fst :=
      List.mem_map.mpr ⟨_, hmem, rfl⟩
    have hc0 := mem_mkDataFrame_cols.mpr ⟨_, hrec, hkey⟩
    rw [hrow]
    exact ⟨_, mem_row_of_mem_cols (hcolsbwd _ hc0)⟩
  · intro f w hmemout
    rw [hrow] at hmemout
    obtain ⟨hfc, hw⟩ := mem_row_inv hmemout
    rcases hcolsfwd f hfc with hf0 | h | h | h | h
    · obtain ⟨r, hr, hfr⟩ := mem_mkDataFrame_cols.mp hf0
      by_cases hki : f ∈ (batch.getD i []).map Prod.fst
      · exact Or.inl hki
      · refine Or.inr (Or.inl ⟨⟨r, hr, hfr⟩, ?_⟩)
        obtain ⟨hne1, hne2, hne3, hne4⟩ := hres4 r hr f hfr
        have hc0 : (mkDataFrame batch).cell i f = .missing := by
          rw [mkDataFrame_cell, lookup_eq_none_of_not_mem_keys hki]
          rfl
        by_cases hft : f = "timestamp"
        · subst hft
          have hts : df2.cell i "timestamp" = .missing := by
            rw [hdf2, assignColumn_cell_ne (by decide), selectStage_cell_ne (by decide)]
            exact deriveStage_cell_ts_missing hd hc0
          rw [hw, hts]
          rfl
        · have hstab := hcellstable f hft hne1 hne2 hne3 hne4
          rw [hw, hstab, hc0]
          rfl
    all_goals simp [h]

/-- Counterexample to C1 as stated: on this accepted single-record batch the output
record gains a `dummy_feature` field in addition to `is_anomaly`. -/
theorem c1_counterexample :
    (analyze_logs detector (some [[("msg", JValue.str "x")]])).1 =
        .ok [[("msg", JValue.str "x"), ("dummy_feature", JValue.num 0),
          ("is_anomaly", JValue.num 1)]] ∧
      ("dummy_feature", JValue.num 0) ∈ ([("msg", JValue.str "x"),
        ("dummy_feature", JValue.num 0), ("is_anomaly", JValue.num 1)] :
        List (String × JValue)) ∧
      "dummy_feature" ∉ (([[("msg", JValue.str "x")]] : List LogRecord).getD 0 []).map
        Prod.fst := by
  refine ⟨by with_unfolding_all rfl, by with_unfolding_all decide, by decide⟩

/-- Witness for C1 at a concrete accepted batch: the field `a` of the input record
reappears unchanged in the output record. -/
theorem c1_witness :
    (analyze_logs detector (some [[("a", JValue.num 3), ("msg", JValue.str "hi")]])).1 =
        .ok [[("a", JValue.num 3), ("msg", JValue.str "hi"), ("is_anomaly", JValue.num 1)]] ∧
      ("a", JValue.num 3) ∈ ([[("a", JValue.num 3), ("msg", JValue.str "hi"),
        ("is_anomaly", JValue.num 1)]] : List (List (String × JValue))).getD 0 [] := by
  have hok : (analyze_logs detector
      (some [[("a", JValue.num 3), ("msg", JValue.str "hi")]])).1 =
      .ok [[("a", JValue.num 3), ("msg", JValue.str "hi"),
        ("is_anomaly", JValue.num 1)]] := by
    with_unfolding_all rfl
  refine ⟨hok, ?_⟩
  exact (c1_amended detector _ _ 0 (by decide) (by decide) hok (by decide)).1
    "a" (JValue.num 3) (by with_unfolding_all decide) (by decide)
